import Mathlib

/-!
Shallow embedding of the LocalLibrary catalog schema
(`src/locallibrary/catalog/models.py`).

The repository declares five Django model classes — `Genre`, `Book`,
`BookInstance`, `Author`, `Language` — together with uniqueness
constraints, on-delete policies, default orderings, canonical string
forms and URL helpers.  We embed each record type as a Lean structure,
the catalog database as lists of records, and each declared behaviour
as an explicit state-passing operation whose semantics follows the
documented meaning of the Django declarations appearing in the source
(`unique=True`, `UniqueConstraint(Lower(...))`, `on_delete=RESTRICT`,
`on_delete=SET_NULL`, `choices`/`blank`/`default`, `Meta.ordering`).

Dates are modelled as natural numbers (only their order matters), the
auto-increment / UUID identifiers as natural numbers, and fallible
operations return `Except String Catalog` where the error string is the
validation message.
-/

namespace LocalLib

/-- SQL `LOWER` / `django.db.models.functions.Lower`, used by the
case-insensitive unique constraints on `Genre.name` and `Language.lan`. -/
def strLower (s : String) : String := String.mk (s.data.map Char.toLower)

/-- `Genre` model: `name = CharField(max_length=200, unique=True)` plus a
case-insensitive `UniqueConstraint(Lower('name'))`. -/
structure Genre where
  id : Nat
  name : String
deriving Repr, DecidableEq

/-- `Author` model: `first_name`, `last_name`, optional `date_of_birth` and
`date_of_death`. -/
structure Author where
  id : Nat
  first_name : String
  last_name : String
  date_of_birth : Option Nat
  date_of_death : Option Nat
deriving Repr, DecidableEq

/-- `Language` model: single field `lan = CharField(max_length=100)` plus a
case-insensitive `UniqueConstraint(Lower('lan'))`. -/
structure Language where
  id : Nat
  lan : String
deriving Repr, DecidableEq

/-- `Book` model: `title`, nullable FK `author` (RESTRICT), nullable FK
`language` (SET_NULL), `summary`, `isbn = CharField(unique=True)`, and a
many-to-many `genre` relation (modelled as the list of related genre ids). -/
structure Book where
  id : Nat
  title : String
  author : Option Nat
  language : Option Nat
  summary : String
  isbn : String
  genre : List Nat
deriving Repr, DecidableEq

/-- `BookInstance` model: UUID `id`, nullable FK `book` (RESTRICT),
`imprint`, optional `due_back` date, and a one-character `status`. -/
structure BookInstance where
  id : Nat
  book : Option Nat
  imprint : String
  due_back : Option Nat
  status : String
deriving Repr, DecidableEq

/-- `BookInstance.LOAN_STATUS`: the `choices` tuple of
(stored value, human-readable name) pairs. -/
def LOAN_STATUS : List (String × String) :=
  [("m", "Maintenance"), ("o", "On loan"), ("a", "Available"), ("r", "Reserved")]

/-- Configuration of a Django `CharField` that carries `choices`: whether
`blank` is set and what the `default` is.  `BookInstance.status` is declared
with `choices=LOAN_STATUS, blank=True, default='m'`. -/
structure ChoiceFieldCfg where
  choices : List (String × String)
  blank : Bool
  default : String
deriving Repr, DecidableEq

/-- The declaration of the `status` field of `BookInstance`
(`models.py` lines 96–101). -/
def statusField : ChoiceFieldCfg :=
  { choices := LOAN_STATUS, blank := true, default := "m" }

/-- Django `Model.full_clean` semantics for a field with `choices`: when the
field has `blank=True` and the value is empty, validation is skipped
entirely; otherwise the value must be one of the stored choice keys
(`validate` raises `invalid_choice` for anything else). -/
def cleanChoiceField (cfg : ChoiceFieldCfg) (v : String) : Bool :=
  (cfg.blank && v == "") || cfg.choices.any (fun c => c.1 == v)

/-- Status assigned at creation: the given value, or the field's declared
`default` (`'m'`) when none is supplied. -/
def newInstanceStatus (given : Option String) : String :=
  given.getD statusField.default

/-- The catalog database: one table per model class. -/
structure Catalog where
  genres : List Genre
  authors : List Author
  languages : List Language
  books : List Book
  instances : List BookInstance
deriving Repr, DecidableEq

/-- The empty catalog. -/
def Catalog.empty : Catalog :=
  { genres := [], authors := [], languages := [], books := [], instances := [] }

/-- Insert a `Genre`.  `name` carries `unique=True` (exact duplicate is
rejected with Django's default message) and the `Meta.constraints` entry
`UniqueConstraint(Lower('name'), violation_error_message="Genre already
exists (case insensitive match)")`. -/
def insertGenre (g : Genre) (st : Catalog) : Except String Catalog :=
  if st.genres.any (fun x => x.name == g.name) then
    .error "Genre with this Name already exists."
  else if st.genres.any (fun x => strLower x.name == strLower g.name) then
    .error "Genre already exists (case insensitive match)"
  else
    .ok { st with genres := st.genres ++ [g] }

/-- Insert a `Language`.  `lan` has no `unique=True`; only the
`Meta.constraints` entry `UniqueConstraint(Lower('lan'),
violation_error_message="Language already exists (case insensitive
match)")` applies. -/
def insertLanguage (l : Language) (st : Catalog) : Except String Catalog :=
  if st.languages.any (fun x => strLower x.lan == strLower l.lan) then
    .error "Language already exists (case insensitive match)"
  else
    .ok { st with languages := st.languages ++ [l] }

/-- Insert a `Book`.  `isbn` carries `unique=True`: an exact, case-sensitive
duplicate is rejected. -/
def insertBook (b : Book) (st : Catalog) : Except String Catalog :=
  if st.books.any (fun x => x.isbn == b.isbn) then
    .error "Book with this ISBN already exists."
  else
    .ok { st with books := st.books ++ [b] }

/-- Delete an `Author`.  `Book.author` is declared
`on_delete=models.RESTRICT`: deletion is rejected (`RestrictedError`) while
any book references the author; otherwise the author row is removed. -/
def deleteAuthor (aid : Nat) (st : Catalog) : Except String Catalog :=
  if st.books.any (fun b => b.author == some aid) then
    .error "RestrictedError"
  else
    .ok { st with authors := st.authors.filter (fun a => a.id != aid) }

/-- Delete a `Book`.  `BookInstance.book` is declared
`on_delete=models.RESTRICT`: deletion is rejected while any book instance
references the book. -/
def deleteBook (bid : Nat) (st : Catalog) : Except String Catalog :=
  if st.instances.any (fun i => i.book == some bid) then
    .error "RestrictedError"
  else
    .ok { st with books := st.books.filter (fun b => b.id != bid) }

/-- Effect of `on_delete=models.SET_NULL` of language `lid` on one book:
the `language` reference is cleared when it points at `lid`; every other
field is untouched. -/
def clearLanguage (lid : Nat) (b : Book) : Book :=
  if b.language == some lid then { b with language := none } else b

/-- Delete a `Language`.  `Book.language` is declared
`on_delete=models.SET_NULL`: deletion always succeeds, the language row is
removed, and every referencing book has its `language` set to null. -/
def deleteLanguage (lid : Nat) (st : Catalog) : Except String Catalog :=
  .ok { st with
        languages := st.languages.filter (fun l => l.id != lid),
        books := st.books.map (clearLanguage lid) }

/-- State of the catalog after attempting a delete: a rejected delete
raises before anything is written, leaving the database unchanged. -/
def afterDelete (r : Except String Catalog) (st : Catalog) : Catalog :=
  match r with
  | .ok st2 => st2
  | .error _ => st

/-- Comparison used by `BookInstance.Meta.ordering = ['due_back']` under the
persistence layer's null-ordering convention for ascending order: a null
`due_back` sorts before every date. -/
def dueLe (x y : BookInstance) : Bool :=
  match x.due_back, y.due_back with
  | none, _ => true
  | some _, none => false
  | some a, some b => a ≤ b

/-- Sort key for `Author.Meta.ordering = ["last_name", "first_name"]`:
lexicographic on (last name, first name). -/
def authorKey (a : Author) : Lex (String × String) :=
  toLex (a.last_name, a.first_name)

/-- Comparison realising `Author.Meta.ordering = ["last_name", "first_name"]`. -/
def authorLe (x y : Author) : Bool :=
  decide (authorKey x ≤ authorKey y)

/-- Default query over all book instances: ordered by `due_back` ascending
(`BookInstance.Meta.ordering`). -/
def allBookInstances (st : Catalog) : List BookInstance :=
  st.instances.mergeSort dueLe

/-- Default query over all authors: ordered by last name then first name
(`Author.Meta.ordering`). -/
def allAuthors (st : Catalog) : List Author :=
  st.authors.mergeSort authorLe

/-- `Genre.__str__`: the genre's name. -/
def Genre.str (g : Genre) : String := g.name

/-- `Book.__str__`: the book's title. -/
def Book.str (b : Book) : String := b.title

/-- `Author.__str__`: the f-string `f"{self.last_name}, {self.last_name}"`
exactly as written in the source (the last name appears twice). -/
def Author.str (a : Author) : String := s!"{a.last_name}, {a.last_name}"

/-- `Language.__str__`: the language's name field `lan`. -/
def Language.str (l : Language) : String := l.lan

/-- Resolve a nullable `Book` foreign key against the catalog. -/
def getBook (st : Catalog) (bid : Option Nat) : Option Book :=
  bid.bind (fun i => st.books.find? (fun b => b.id == i))

/-- `BookInstance.__str__`: the f-string `f"{self.id} ({self.book.title})"`.
Its attribute access `self.book.title` fails (Python `AttributeError`) when
the nullable `book` reference is null or dangling, modelled as `none`. -/
def BookInstance.str (st : Catalog) (bi : BookInstance) : Option String :=
  match getBook st bi.book with
  | none => none
  | some b => some s!"{bi.id} ({b.title})"

/-- Modelled from the spec: the URL routing table (`django.urls.reverse`
resolves view names against a URLconf that is not part of this repository).
The spec fixes the resource locator convention `/genre/<id>`, `/book/<id>`,
`/author/<id>`, `/language/<id>` for the four named routes the source
passes to `reverse`. -/
def reverseUrl (name : String) (arg : String) : Option String :=
  if name == "genre-detail" then some ("/genre/" ++ arg)
  else if name == "book-detail" then some ("/book/" ++ arg)
  else if name == "author-detail" then some ("/author/" ++ arg)
  else if name == "lan-name" then some ("/language/" ++ arg)
  else none

/-- `Genre.get_absolute_url`: `reverse('genre-detail', args=[str(self.id)])`. -/
def Genre.get_absolute_url (g : Genre) : Option String :=
  reverseUrl "genre-detail" (toString g.id)

/-- `Book.get_absolute_url`: `reverse("book-detail", args=[str(self.id)])`. -/
def Book.get_absolute_url (b : Book) : Option String :=
  reverseUrl "book-detail" (toString b.id)

/-- `Author.get_absolute_url`: `reverse("author-detail", args=[str(self.id)])`. -/
def Author.get_absolute_url (a : Author) : Option String :=
  reverseUrl "author-detail" (toString a.id)

/-- `Language.get_absolute_url`: `reverse("lan-name", args=[str(self.id)])`. -/
def Language.get_absolute_url (l : Language) : Option String :=
  reverseUrl "lan-name" (toString l.id)

/-- C1 counterexample: the claim says every input value outside the four
choice keys is rejected, but `status` is declared `blank=True`, so Django's
validation accepts the empty string even though it is not one of the four
allowed values. -/
theorem status_blank_value_accepted :
    cleanChoiceField statusField "" = true ∧
    ("" ∈ LOAN_STATUS.map Prod.fst → False) ∧
    ¬ (∀ v : String, cleanChoiceField statusField v = true → v ∈ LOAN_STATUS.map Prod.fst) := by
  refine ⟨by decide, by decide, fun h => ?_⟩
  exact absurd (h "" (by decide)) (by decide)

/-- C1 (amended): the status field has exactly the four choice values
`m`, `o`, `a`, `r` (Maintenance, On loan, Available, Reserved); a status
left unspecified at creation defaults to `m` (Maintenance); every
non-empty input value outside the four is rejected by validation, while
the empty value is additionally accepted because the field declares
`blank=True`. -/
theorem status_choices_validation (v : String) (hv : v ≠ "") :
    (cleanChoiceField statusField v = true ↔ v = "m" ∨ v = "o" ∨ v = "a" ∨ v = "r") ∧
    newInstanceStatus none = "m" := by
  refine ⟨?_, rfl⟩
  simp only [cleanChoiceField, statusField, LOAN_STATUS, Bool.or_eq_true, Bool.and_eq_true,
    beq_iff_eq, List.any_cons, List.any_nil, or_false]
  constructor
  · rintro (⟨-, h⟩ | h | h | h | h) <;> simp_all
  · rintro (h | h | h | h) <;> simp [h]

/-- C1 witness: validation accepts the stored value `o` (it is one of the
four choices), and an unspecified status defaults to `m`. -/
theorem status_choices_validation_witness :
    (cleanChoiceField statusField "o" = true ↔
      "o" = "m" ∨ "o" = "o" ∨ "o" = "a" ∨ "o" = "r") ∧
    newInstanceStatus none = "m" :=
  status_choices_validation "o" (by decide)

/-- C2: creating a Genre succeeds when no existing genre matches its name
case-insensitively; creating a second Genre whose name differs from the
first only in letter case then fails with "Genre already exists (case
insensitive match)"; and the same holds for Language with "Language
already exists (case insensitive match)". -/
theorem genre_language_case_insensitive_unique
    (st : Catalog) (g1 g2 : Genre) (l1 l2 : Language)
    (hg : strLower g1.name = strLower g2.name) (hgne : g1.name ≠ g2.name)
    (hgfresh : ∀ x ∈ st.genres, strLower x.name ≠ strLower g1.name)
    (hl : strLower l1.lan = strLower l2.lan)
    (hlfresh : ∀ x ∈ st.languages, strLower x.lan ≠ strLower l1.lan) :
    ∃ st1, insertGenre g1 st = .ok st1 ∧
      insertGenre g2 st1 = .error "Genre already exists (case insensitive match)" ∧
      ∃ st2, insertLanguage l1 st = .ok st2 ∧
        insertLanguage l2 st2 = .error "Language already exists (case insensitive match)" := by
  have hex1 : (st.genres.any fun x => x.name == g1.name) = false := by
    rw [List.any_eq_false]
    intro x hx
    simp only [beq_iff_eq]
    intro he
    exact hgfresh x hx (by rw [he])
  have hlow1 : (st.genres.any fun x => strLower x.name == strLower g1.name) = false := by
    rw [List.any_eq_false]
    intro x hx
    simp only [beq_iff_eq]
    exact hgfresh x hx
  have hex2 : ((st.genres ++ [g1]).any fun x => x.name == g2.name) = false := by
    rw [List.any_eq_false]
    intro x hx
    simp only [beq_iff_eq]
    rcases List.mem_append.mp hx with h | h
    · intro he
      exact hgfresh x h (by rw [he, ← hg])
    · rw [List.mem_singleton] at h
      subst h
      exact hgne
  have hlow2 : ((st.genres ++ [g1]).any fun x => strLower x.name == strLower g2.name) = true :=
    List.any_eq_true.mpr
      ⟨g1, List.mem_append_right _ (List.mem_singleton.mpr rfl), by simp [beq_iff_eq, hg]⟩
  have hlanFresh : (st.languages.any fun x => strLower x.lan == strLower l1.lan) = false := by
    rw [List.any_eq_false]
    intro x hx
    simp only [beq_iff_eq]
    exact hlfresh x hx
  have hlan2 : ((st.languages ++ [l1]).any fun x => strLower x.lan == strLower l2.lan) = true :=
    List.any_eq_true.mpr
      ⟨l1, List.mem_append_right _ (List.mem_singleton.mpr rfl), by simp [beq_iff_eq, hl]⟩
  refine ⟨{ st with genres := st.genres ++ [g1] }, ?_, ?_,
    { st with languages := st.languages ++ [l1] }, ?_, ?_⟩
  · simp [insertGenre, hex1, hlow1]
  · simp [insertGenre, hex2, hlow2]
  · simp [insertLanguage, hlanFresh]
  · simp [insertLanguage, hlan2]

/-- C2 witness: in the empty catalog, "Fantasy" then "fantasy" and
"English" then "ENGLISH" exhibit the case-insensitive rejections with
their exact messages. -/
theorem genre_language_case_insensitive_unique_witness :
    ∃ st1, insertGenre ⟨1, "Fantasy"⟩ Catalog.empty = .ok st1 ∧
      insertGenre ⟨2, "fantasy"⟩ st1 = .error "Genre already exists (case insensitive match)" ∧
      ∃ st2, insertLanguage ⟨1, "English"⟩ Catalog.empty = .ok st2 ∧
        insertLanguage ⟨2, "ENGLISH"⟩ st2 =
          .error "Language already exists (case insensitive match)" :=
  genre_language_case_insensitive_unique Catalog.empty ⟨1, "Fantasy"⟩ ⟨2, "fantasy"⟩
    ⟨1, "English"⟩ ⟨2, "ENGLISH"⟩ (by decide) (by decide) (by decide) (by decide) (by decide)

/-! Helper lemmas about the two default-ordering comparisons. -/

theorem dueLe_trans :
    ∀ a b c : BookInstance, dueLe a b = true → dueLe b c = true → dueLe a c = true := by
  intro a b c h1 h2
  unfold dueLe at *
  cases ha : a.due_back <;> cases hb : b.due_back <;> cases hc : c.due_back <;>
    rw [ha, hb] at h1 <;> rw [hb, hc] at h2 <;> simp_all
  omega

theorem dueLe_total : ∀ a b : BookInstance, (dueLe a b || dueLe b a) = true := by
  intro a b
  unfold dueLe
  cases a.due_back <;> cases b.due_back <;> simp
  omega

theorem authorLe_trans :
    ∀ a b c : Author, authorLe a b = true → authorLe b c = true → authorLe a c = true := by
  intro a b c h1 h2
  simp only [authorLe, decide_eq_true_eq] at *
  exact le_trans h1 h2

theorem authorLe_total : ∀ a b : Author, (authorLe a b || authorLe b a) = true := by
  intro a b
  simp only [authorLe, Bool.or_eq_true, decide_eq_true_eq]
  exact le_total _ _

/-- C7: a default query over all BookInstances returns a permutation of the
instance table sorted by `due_back` ascending with null due dates first
(every earlier element either has a null due date, or both elements have
dates in ascending order), and a default query over all Authors returns a
permutation of the author table sorted by last name, ties broken by first
name. -/
theorem default_query_ordering (st : Catalog) :
    (allBookInstances st).Perm st.instances ∧
    (allBookInstances st).Pairwise (fun x y =>
      x.due_back = none ∨ ∃ d1 d2, x.due_back = some d1 ∧ y.due_back = some d2 ∧ d1 ≤ d2) ∧
    (allAuthors st).Perm st.authors ∧
    (allAuthors st).Pairwise (fun x y =>
      x.last_name < y.last_name ∨ (x.last_name = y.last_name ∧ x.first_name ≤ y.first_name)) := by
  refine ⟨List.mergeSort_perm _ _, ?_, List.mergeSort_perm _ _, ?_⟩
  · have hs := List.sorted_mergeSort dueLe_trans dueLe_total st.instances
    refine hs.imp ?_
    intro x y hxy
    unfold dueLe at hxy
    cases hx : x.due_back with
    | none => exact Or.inl rfl
    | some d1 =>
      cases hy : y.due_back with
      | none => rw [hx, hy] at hxy; simp at hxy
      | some d2 =>
        rw [hx, hy] at hxy
        exact Or.inr ⟨d1, d2, rfl, rfl, by simpa using hxy⟩
  · have hs := List.sorted_mergeSort authorLe_trans authorLe_total st.authors
    refine hs.imp ?_
    intro x y hxy
    have hk : authorKey x ≤ authorKey y := by
      simpa [authorLe, decide_eq_true_eq] using hxy
    simpa [authorKey] using (Prod.Lex.le_iff _ _).mp hk

/-- C8: the canonical string form of an Author is its last name, a comma
and space, and the last name again (the source f-string repeats
`self.last_name`). -/
theorem author_str_repeats_last_name (a : Author) :
    Author.str a = a.last_name ++ ", " ++ a.last_name := by
  simp only [Author.str]
  show "" ++ a.last_name ++ ", " ++ a.last_name ++ "" = a.last_name ++ ", " ++ a.last_name
  rw [String.empty_append, String.append_empty]

/-- C9: the reference-resolution helpers of Genre, Book, Author and
Language map an entity's identifier to the resource locator
`/<entity-kind>/<id>`. -/
theorem get_absolute_url_convention (g : Genre) (b : Book) (a : Author) (l : Language) :
    Genre.get_absolute_url g = some ("/genre/" ++ toString g.id) ∧
    Book.get_absolute_url b = some ("/book/" ++ toString b.id) ∧
    Author.get_absolute_url a = some ("/author/" ++ toString a.id) ∧
    Language.get_absolute_url l = some ("/language/" ++ toString l.id) :=
  ⟨rfl, rfl, rfl, rfl⟩

/-- C3: on a catalog whose books have pairwise distinct ISBNs, inserting a
Book whose isbn equals that of an existing Book fails with a validation
error, and any successful insert appends the book and preserves pairwise
distinctness of ISBNs (exact, case-sensitive string comparison). -/
theorem book_isbn_unique (st : Catalog) (b : Book)
    (hinv : List.Pairwise (fun x y => x.isbn ≠ y.isbn) st.books) :
    ((∃ x ∈ st.books, x.isbn = b.isbn) →
        insertBook b st = .error "Book with this ISBN already exists.") ∧
    (∀ st2, insertBook b st = .ok st2 →
        st2.books = st.books ++ [b] ∧
        List.Pairwise (fun x y => x.isbn ≠ y.isbn) st2.books) := by
  constructor
  · rintro ⟨x, hx, he⟩
    have hany : (st.books.any fun y => y.isbn == b.isbn) = true :=
      List.any_eq_true.mpr ⟨x, hx, by simp [beq_iff_eq, he]⟩
    simp [insertBook, hany]
  · intro st2 hok
    by_cases hc : (st.books.any fun y => y.isbn == b.isbn) = true
    · simp [insertBook, hc] at hok
    · rw [Bool.not_eq_true] at hc
      rw [List.any_eq_false] at hc
      simp only [insertBook, List.any_eq_false] at hok
      rw [List.any_eq_false.mpr hc] at hok
      simp only [if_neg Bool.false_ne_true, Except.ok.injEq] at hok
      subst hok
      refine ⟨rfl, List.pairwise_append.mpr ⟨hinv, List.pairwise_singleton _ _, ?_⟩⟩
      intro x hx y hy
      rw [List.mem_singleton] at hy
      subst hy
      have := hc x hx
      simpa [beq_iff_eq] using this

/-- C3 witness: inserting a second book with the ISBN of an existing one
fails with the validation error. -/
theorem book_isbn_unique_witness :
    insertBook ⟨2, "B", none, none, "s", "978-0-13-468599-1", []⟩
        { Catalog.empty with books := [⟨1, "A", none, none, "s", "978-0-13-468599-1", []⟩] } =
      .error "Book with this ISBN already exists." :=
  (book_isbn_unique
      { Catalog.empty with books := [⟨1, "A", none, none, "s", "978-0-13-468599-1", []⟩] }
      ⟨2, "B", none, none, "s", "978-0-13-468599-1", []⟩ (by simp)).1
    ⟨⟨1, "A", none, none, "s", "978-0-13-468599-1", []⟩, by simp, rfl⟩

/-- C4: deleting an Author referenced by at least one Book is rejected
(RESTRICT) and the catalog is unchanged; deleting an Author referenced by
no Book succeeds and removes exactly that author row. -/
theorem author_delete_restrict (st : Catalog) (aid : Nat) :
    ((∃ b ∈ st.books, b.author = some aid) →
        deleteAuthor aid st = .error "RestrictedError" ∧
        afterDelete (deleteAuthor aid st) st = st) ∧
    ((∀ b ∈ st.books, b.author ≠ some aid) →
        deleteAuthor aid st =
          .ok { st with authors := st.authors.filter (fun a => a.id != aid) }) := by
  constructor
  · rintro ⟨b, hb, he⟩
    have hany : (st.books.any fun x => x.author == some aid) = true :=
      List.any_eq_true.mpr ⟨b, hb, by simp [he]⟩
    constructor <;> simp [deleteAuthor, afterDelete, hany]
  · intro h
    have hany : (st.books.any fun x => x.author == some aid) = false := by
      rw [List.any_eq_false]
      intro x hx
      simpa using h x hx
    simp [deleteAuthor, hany]

/-- C4 witness: with one book referencing author 1, deletion is rejected
and the catalog is unchanged. -/
theorem author_delete_restrict_witness :
    deleteAuthor 1
        { Catalog.empty with
          authors := [⟨1, "F", "L", none, none⟩],
          books := [⟨1, "A", some 1, none, "s", "i", []⟩] } =
      .error "RestrictedError" ∧
    afterDelete
        (deleteAuthor 1
          { Catalog.empty with
            authors := [⟨1, "F", "L", none, none⟩],
            books := [⟨1, "A", some 1, none, "s", "i", []⟩] })
        { Catalog.empty with
          authors := [⟨1, "F", "L", none, none⟩],
          books := [⟨1, "A", some 1, none, "s", "i", []⟩] } =
      { Catalog.empty with
        authors := [⟨1, "F", "L", none, none⟩],
        books := [⟨1, "A", some 1, none, "s", "i", []⟩] } :=
  (author_delete_restrict
      { Catalog.empty with
        authors := [⟨1, "F", "L", none, none⟩],
        books := [⟨1, "A", some 1, none, "s", "i", []⟩] } 1).1
    ⟨⟨1, "A", some 1, none, "s", "i", []⟩, by simp, rfl⟩

/-- C5: deleting a Language referenced by a Book succeeds; afterwards the
language row is gone, genres, authors and instances are untouched, and the
referencing book appears with its language reference null and every other
field (id, title, author, summary, isbn, genres) unchanged. -/
theorem language_delete_set_null (st : Catalog) (lid : Nat) (b : Book)
    (hb : b ∈ st.books) (href : b.language = some lid) :
    ∃ st2, deleteLanguage lid st = .ok st2 ∧
      st2.languages = st.languages.filter (fun l => l.id != lid) ∧
      st2.genres = st.genres ∧ st2.authors = st.authors ∧ st2.instances = st.instances ∧
      ∃ b2 ∈ st2.books, b2.id = b.id ∧ b2.language = none ∧ b2.title = b.title ∧
        b2.author = b.author ∧ b2.summary = b.summary ∧ b2.isbn = b.isbn ∧
        b2.genre = b.genre := by
  refine ⟨_, rfl, rfl, rfl, rfl, rfl, clearLanguage lid b, List.mem_map_of_mem _ hb, ?_⟩
  simp [clearLanguage, href]

/-- C5 witness: deleting language 1, referenced by the only book, nullifies
that book's language and preserves its other fields. -/
theorem language_delete_set_null_witness :
    ∃ st2, deleteLanguage 1
        { Catalog.empty with
          languages := [⟨1, "English"⟩],
          books := [⟨1, "T", none, some 1, "s", "i", []⟩] } = .ok st2 ∧
      st2.languages = [Language.mk 1 "English"].filter (fun l => l.id != 1) ∧
      st2.genres = [] ∧ st2.authors = [] ∧ st2.instances = [] ∧
      ∃ b2 ∈ st2.books, b2.id = 1 ∧ b2.language = none ∧ b2.title = "T" ∧
        b2.author = none ∧ b2.summary = "s" ∧ b2.isbn = "i" ∧ b2.genre = [] :=
  language_delete_set_null
    { Catalog.empty with
      languages := [⟨1, "English"⟩],
      books := [⟨1, "T", none, some 1, "s", "i", []⟩] }
    1 ⟨1, "T", none, some 1, "s", "i", []⟩ (by simp) rfl

/-- C6: deleting a Book referenced by at least one BookInstance is rejected
(RESTRICT) and the catalog is unchanged; deleting a Book referenced by no
BookInstance succeeds and removes exactly that book row. -/
theorem book_delete_restrict (st : Catalog) (bid : Nat) :
    ((∃ i ∈ st.instances, i.book = some bid) →
        deleteBook bid st = .error "RestrictedError" ∧
        afterDelete (deleteBook bid st) st = st) ∧
    ((∀ i ∈ st.instances, i.book ≠ some bid) →
        deleteBook bid st =
          .ok { st with books := st.books.filter (fun b => b.id != bid) }) := by
  constructor
  · rintro ⟨i, hi, he⟩
    have hany : (st.instances.any fun x => x.book == some bid) = true :=
      List.any_eq_true.mpr ⟨i, hi, by simp [he]⟩
    constructor <;> simp [deleteBook, afterDelete, hany]
  · intro h
    have hany : (st.instances.any fun x => x.book == some bid) = false := by
      rw [List.any_eq_false]
      intro x hx
      simpa using h x hx
    simp [deleteBook, hany]

/-- C6 witness: with one book instance referencing book 1, deleting book 1
is rejected and the catalog is unchanged. -/
theorem book_delete_restrict_witness :
    deleteBook 1
        { Catalog.empty with
          books := [⟨1, "A", none, none, "s", "i", []⟩],
          instances := [⟨9, some 1, "imp", none, "m"⟩] } =
      .error "RestrictedError" ∧
    afterDelete
        (deleteBook 1
          { Catalog.empty with
            books := [⟨1, "A", none, none, "s", "i", []⟩],
            instances := [⟨9, some 1, "imp", none, "m"⟩] })
        { Catalog.empty with
          books := [⟨1, "A", none, none, "s", "i", []⟩],
          instances := [⟨9, some 1, "imp", none, "m"⟩] } =
      { Catalog.empty with
        books := [⟨1, "A", none, none, "s", "i", []⟩],
        instances := [⟨9, some 1, "imp", none, "m"⟩] } :=
  (book_delete_restrict
      { Catalog.empty with
        books := [⟨1, "A", none, none, "s", "i", []⟩],
        instances := [⟨9, some 1, "imp", none, "m"⟩] } 1).1
    ⟨⟨9, some 1, "imp", none, "m"⟩, by simp, rfl⟩

/-- C10 counterexample: the book reference of a BookInstance may be null,
and on a null reference the canonical string form does not succeed — the
source accesses `self.book.title` unguarded, which fails on null
(AttributeError), modelled as `none`. -/
theorem bookinstance_str_fails_on_null_book :
    BookInstance.str Catalog.empty ⟨7, none, "Imprint", none, "m"⟩ = none ∧
    ¬ ∃ s, BookInstance.str Catalog.empty ⟨7, none, "Imprint", none, "m"⟩ = some s := by
  refine ⟨rfl, ?_⟩
  rintro ⟨s, h⟩
  simp [BookInstance.str, getBook] at h

/-- C10 (amended): whenever the book reference of a BookInstance resolves
to an actual Book, the canonical string form succeeds and equals the
instance's identifier followed by the parenthesized title of that book;
when the reference is null it fails instead of succeeding. -/
theorem bookinstance_str_resolved (st : Catalog) (bi : BookInstance) (b : Book)
    (hres : getBook st bi.book = some b) :
    BookInstance.str st bi = some (toString bi.id ++ " (" ++ b.title ++ ")") := by
  unfold BookInstance.str
  rw [hres]
  congr 1

/-- C10 witness: an instance whose book reference resolves to the book
titled "T" renders as the identifier followed by "(T)". -/
theorem bookinstance_str_resolved_witness :
    BookInstance.str
        { Catalog.empty with books := [⟨1, "T", none, none, "s", "i", []⟩] }
        ⟨7, some 1, "Imprint", none, "m"⟩ =
      some (toString 7 ++ " (" ++ "T" ++ ")") :=
  bookinstance_str_resolved
    { Catalog.empty with books := [⟨1, "T", none, none, "s", "i", []⟩] }
    ⟨7, some 1, "Imprint", none, "m"⟩ ⟨1, "T", none, none, "s", "i", []⟩ rfl

end LocalLib
